import Mathlib

/-!
Shallow embedding of the Form Field Classification and Synthetic Filling
Engine (`src/utilities/web/formFiller.ts`): the classifier, value generator,
scanner and filler/orchestrator of the `FormFiller` class, together with
theorems settling the specification claims about them.

Conventions of the embedding:
* JS strings are `String`; `s.includes(pat)` is `strIncludes s pat`.
* Attribute reads `(await el.getAttribute(a)) || ""` are modelled as plain
  `String` fields of `Element`, already normalised (`null` read as `""`).
* The Playwright page is an oracle (`Env`): selector queries return lists of
  elements, locator resolution returns an element, and every performed
  browser interaction is recorded in an explicit `Interaction` trace.
* The Faker collaborator is an oracle family indexed by the installed
  `FakerInst`; `faker.number.int` is modelled from its contract (a uniformly
  random integer in the closed interval) via an explicit randomness draw.
* A JS exception is an `Except.error`; `async` sequencing is plain
  sequential composition (the engine is single-threaded, §5 of the spec).
-/

namespace FormFillerModel

/-- Contiguous-sublist check on character lists, by structural recursion on
the haystack (kept kernel-reducible so concrete runs evaluate by `decide`). -/
def listInfix (needle : List Char) : List Char → Bool
  | [] => needle.isEmpty
  | c :: rest => needle.isPrefixOf (c :: rest) || listInfix needle rest

/-- JS `s.includes(pat)`: `pat` occurs as a contiguous substring of `s`
(true when `pat` is empty, as in JS). -/
def strIncludes (s pat : String) : Bool :=
  listInfix pat.toList s.toList

/-- JS `s.toLowerCase()`, as a character-wise map (the engine's strings are
ASCII attribute values, for which this agrees with JS). -/
def toLowerStr (s : String) : String :=
  String.mk (s.toList.map Char.toLower)

/-- The `FieldType` enum of the source. `RADIO_KIND` embeds the source's
radio-button enum case. -/
inductive FieldType where
  | TEXT
  | EMAIL
  | PASSWORD
  | PHONE
  | NUMBER
  | DATE
  | SELECT
  | CHECKBOX
  | RADIO_KIND
  | TEXTAREA
  | FILE
  | NAME
  | ADDRESS
  | CITY
  | STATE
  | ZIP
  | COUNTRY
  | COMPANY
  | URL
  | CUSTOM
deriving DecidableEq, Repr

/-- The static `fieldTypeMappings` table of the source, in its literal
(insertion) order — the order `Object.entries` iterates, since no key is an
integer-like string. -/
def fieldTypeMappings : List (String × FieldType) := [
  ("text", FieldType.TEXT),
  ("email", FieldType.EMAIL),
  ("password", FieldType.PASSWORD),
  ("number", FieldType.NUMBER),
  ("date", FieldType.DATE),
  ("checkbox", FieldType.CHECKBOX),
  ("radio", FieldType.RADIO_KIND),
  ("file", FieldType.FILE),
  ("url", FieldType.URL),
  ("name", FieldType.NAME),
  ("first", FieldType.NAME),
  ("firstname", FieldType.NAME),
  ("first-name", FieldType.NAME),
  ("first_name", FieldType.NAME),
  ("last", FieldType.NAME),
  ("lastname", FieldType.NAME),
  ("last-name", FieldType.NAME),
  ("last_name", FieldType.NAME),
  ("fullname", FieldType.NAME),
  ("full-name", FieldType.NAME),
  ("full_name", FieldType.NAME),
  ("e-mail", FieldType.EMAIL),
  ("mail", FieldType.EMAIL),
  ("pass", FieldType.PASSWORD),
  ("pwd", FieldType.PASSWORD),
  ("phone", FieldType.PHONE),
  ("telephone", FieldType.PHONE),
  ("tel", FieldType.PHONE),
  ("mobile", FieldType.PHONE),
  ("cell", FieldType.PHONE),
  ("address", FieldType.ADDRESS),
  ("street", FieldType.ADDRESS),
  ("street-address", FieldType.ADDRESS),
  ("street_address", FieldType.ADDRESS),
  ("addr", FieldType.ADDRESS),
  ("line1", FieldType.ADDRESS),
  ("address-line1", FieldType.ADDRESS),
  ("address_line1", FieldType.ADDRESS),
  ("city", FieldType.CITY),
  ("town", FieldType.CITY),
  ("locality", FieldType.CITY),
  ("state", FieldType.STATE),
  ("province", FieldType.STATE),
  ("region", FieldType.STATE),
  ("county", FieldType.STATE),
  ("zip", FieldType.ZIP),
  ("zipcode", FieldType.ZIP),
  ("zip-code", FieldType.ZIP),
  ("zip_code", FieldType.ZIP),
  ("postal", FieldType.ZIP),
  ("postalcode", FieldType.ZIP),
  ("postal-code", FieldType.ZIP),
  ("postal_code", FieldType.ZIP),
  ("country", FieldType.COUNTRY),
  ("nation", FieldType.COUNTRY),
  ("company", FieldType.COMPANY),
  ("organization", FieldType.COMPANY),
  ("organisation", FieldType.COMPANY),
  ("business", FieldType.COMPANY),
  ("firm", FieldType.COMPANY),
  ("website", FieldType.URL),
  ("web-site", FieldType.URL),
  ("web_site", FieldType.URL),
  ("homepage", FieldType.URL),
  ("home-page", FieldType.URL),
  ("home_page", FieldType.URL),
  ("web", FieldType.URL),
  ("comment", FieldType.TEXTAREA),
  ("message", FieldType.TEXTAREA),
  ("description", FieldType.TEXTAREA),
  ("memo", FieldType.TEXTAREA),
  ("notes", FieldType.TEXTAREA)]

/-- The declared-type check of `determineFieldType`:
`inputType && fieldTypeMappings[inputType.toLowerCase()]` — the property
access is an exact key lookup, guarded by JS truthiness of `inputType`
(every table value is a non-empty enum string, hence truthy). -/
def typeLookup (inputType : String) : Option FieldType :=
  if inputType = "" then none else fieldTypeMappings.lookup (toLowerStr inputType)

/-- One free-text signal scan of `determineFieldType`: iterate the table in
`Object.entries` order and return the category of the first pattern that is
a substring of the (lowercased) signal. -/
def signalScan (signal : String) : Option FieldType :=
  (fieldTypeMappings.find? (fun e => strIncludes (toLowerStr signal) (toLowerStr e.1))).map
    (fun e => e.2)

/-- `FormFiller.determineFieldType`: tag checks first, then the declared
input type against the table, then the five free-text signals in order
(name, id, placeholder, aria-label, label), defaulting to TEXT. -/
def determineFieldType (tagName inputType name id placeholder ariaLabel
    label : String) : FieldType :=
  if tagName = "select" then FieldType.SELECT
  else if tagName = "textarea" then FieldType.TEXTAREA
  else
    match typeLookup inputType with
    | some t => t
    | none =>
      match signalScan name with
      | some t => t
      | none =>
        match signalScan id with
        | some t => t
        | none =>
          match signalScan placeholder with
          | some t => t
          | none =>
            match signalScan ariaLabel with
            | some t => t
            | none =>
              match signalScan label with
              | some t => t
              | none => FieldType.TEXT

example : determineFieldType "input" "email" "zip" "" "" "" "" = FieldType.EMAIL := by
  decide

example : determineFieldType "select" "email" "email" "email" "email" "email" "email"
    = FieldType.SELECT := by decide

example : determineFieldType "textarea" "email" "email" "email" "email" "email" "email"
    = FieldType.TEXTAREA := by decide

example : determineFieldType "input" "" "email-phone-address" "" "" "" ""
    = FieldType.EMAIL := by decide

example : determineFieldType "input" "" "" "" "" "" "" = FieldType.TEXT := by decide

example : determineFieldType "input" "" "" "zip" "first_name" "" ""
    = FieldType.ZIP := by decide

/-- C4: classification follows the strict priority order in which the
first decisive rule wins — a select tag gives SELECT and a textarea tag
gives TEXTAREA regardless of every other signal; otherwise a declared input
type recognised by the static table gives its mapped category regardless of
the five free-text signals; only otherwise are the free-text signals
scanned in the order name, id, placeholder, aria-label, label, with TEXT
when nothing matches. -/
theorem determineFieldType_priority_order :
    (∀ it n i p a l, determineFieldType "select" it n i p a l = FieldType.SELECT)
  ∧ (∀ it n i p a l, determineFieldType "textarea" it n i p a l = FieldType.TEXTAREA)
  ∧ (∀ tg it c n i p a l, tg ≠ "select" → tg ≠ "textarea" →
      typeLookup it = some c → determineFieldType tg it n i p a l = c)
  ∧ (∀ tg it n i p a l, tg ≠ "select" → tg ≠ "textarea" → typeLookup it = none →
      determineFieldType tg it n i p a l
        = (signalScan n).getD ((signalScan i).getD ((signalScan p).getD
            ((signalScan a).getD ((signalScan l).getD FieldType.TEXT))))) := by
  refine ⟨?_, ?_, ?_, ?_⟩
  · intro it n i p a l
    simp [determineFieldType]
  · intro it n i p a l
    simp [determineFieldType]
  · intro tg it c n i p a l h1 h2 h3
    simp [determineFieldType, h1, h2, h3]
  · intro tg it n i p a l h1 h2 h3
    simp only [determineFieldType, h1, h2, h3, if_false]
    cases hn : signalScan n <;> cases hi : signalScan i <;>
      cases hp : signalScan p <;> cases ha : signalScan a <;>
        cases hl : signalScan l <;> simp [hn, hi, hp, ha, hl]

/-- C4 witness: a declared "email" type beats every free-text signal, and
with an unrecognised declared type the placeholder is reached after name
and id fail. -/
theorem determineFieldType_priority_order_witness :
    determineFieldType "input" "email" "zip" "postal" "city" "country" "company"
        = FieldType.EMAIL
      ∧ determineFieldType "input" "xyz" "" "" "zip" "" "" = FieldType.ZIP :=
  ⟨determineFieldType_priority_order.2.2.1 "input" "email" FieldType.EMAIL
      "zip" "postal" "city" "country" "company"
      (by decide) (by decide) (by decide),
   by
    rw [determineFieldType_priority_order.2.2.2 "input" "xyz" "" "" "zip" "" ""
      (by decide) (by decide) (by decide)]
    decide⟩

/-- A JS value that the engine fills with: `string | boolean | number | Date`.
A `Date` is carried together with its JS string rendering, which is all the
filler ever extracts from it. -/
inductive Value where
  | str (s : String)
  | bool (b : Bool)
  | num (n : Int)
  | date (rendering : String)
deriving DecidableEq, Repr

/-- JS `String(value)` as used by `applyValueToField`. -/
def jsString : Value → String
  | Value.str s => s
  | Value.bool b => if b then "true" else "false"
  | Value.num n => toString n
  | Value.date r => r

/-- A field's target reference: a string selector or a resolved Playwright
`Locator` handle (an opaque reference, numbered). -/
inductive Sel where
  | str (s : String)
  | handle (h : Nat)
deriving DecidableEq, Repr

/-- One `<option>` of a live `<select>` element. -/
structure SelectOpt where
  value : String
  disabled : Bool
deriving DecidableEq, Repr

/-- A live DOM element as the engine observes it through Playwright:
`tagName` as `getTagName` reports it (lowercased), `inputType` as
`getInputType` reports it (`none` when not an `HTMLInputElement`), its
`<option>` children, its six scanned attributes (normalised by the source's
`(await getAttribute(..)) || ""`), and its visibility. -/
structure Element where
  tagName : String
  inputType : Option String := none
  selectOptions : List SelectOpt := []
  nameAttr : String := ""
  idAttr : String := ""
  typeAttr : String := ""
  placeholderAttr : String := ""
  ariaLabelAttr : String := ""
  labelAttr : String := ""
  visible : Bool := true

/-- The `FieldConfig` interface. A caller-supplied `valueGenerator` is a
zero-argument thunk that either returns a value or throws; it is embedded by
its outcome. `min` and `max` are embedded as `minBound`/`maxBound`. -/
structure FieldConfig where
  selector : Sel
  fieldType : FieldType
  valueGenerator : Option (Except String Value) := none
  minBound : Option Int := none
  maxBound : Option Int := none
  options : Option (List String) := none
  clickAfterFill : Bool := false
  pressEnterAfterFill : Bool := false
  blurAfterFill : Bool := false
  filePath : Option String := none
  locale : Option String := none

instance : Inhabited FieldConfig :=
  ⟨{ selector := Sel.str "", fieldType := FieldType.TEXT }⟩

/-- A Faker instance: its locale and an allocation number distinguishing
`new Faker(...)` objects (JS object identity). -/
structure FakerInst where
  locale : String
  id : Nat
deriving DecidableEq, Repr

/-- The engine's mutable state: the file-scoped `this.faker` instance plus
the allocation counter for fresh instances. -/
structure EngineState where
  faker : FakerInst
  nextId : Nat
deriving DecidableEq, Repr

/-- The browser-automation and synthetic-data collaborators (§6 of the
spec), as oracles: selector queries and locator resolution on the page, and
the per-category Faker generators, indexed by the Faker instance asked. -/
structure Env where
  query : String → String → List Element
  page : String → Element
  handles : Nat → Element
  loremWords3 : FakerInst → String
  internetEmail : FakerInst → String
  internetPassword12 : FakerInst → String
  phoneNumber : FakerInst → String
  dateRecentDay : FakerInst → String
  loremParagraphs2 : FakerInst → String
  personFullName : FakerInst → String
  streetAddress : FakerInst → String
  cityName : FakerInst → String
  stateName : FakerInst → String
  zipCode : FakerInst → String
  countryName : FakerInst → String
  companyName : FakerInst → String
  internetUrl : FakerInst → String
  loremWord : FakerInst → String

/-- Resolve a `FieldConfig` target the way `fillField` does:
`typeof selector === "string" ? page.locator(selector) : selector`. -/
def resolveSel (env : Env) : Sel → Element
  | Sel.str s => env.page s
  | Sel.handle h => env.handles h

/-- The first entry of the source's `fieldSelectors` array: every input-like
control except hidden/submit/button/reset kinds. -/
def inputKindSelector : String :=
  "input:not([type=\"hidden\"]):not([type=\"submit\"]):not([type=\"button\"]):not([type=\"reset\"])"

/-- Selector synthesis of `detectFormFields`: `#id` when an id exists, else
`elementSelector[name="..."]`, else the positional `nth-child` fallback on
the element's 0-based discovery index `i`. -/
def synthSelector (formSelector elementSelector : String) (el : Element)
    (i : Nat) : String :=
  if el.idAttr ≠ "" then "#" ++ el.idAttr
  else if el.nameAttr ≠ "" then
    elementSelector ++ "[name=\"" ++ el.nameAttr ++ "\"]"
  else
    formSelector ++ " " ++ elementSelector ++ ":nth-child(" ++ toString (i + 1) ++ ")"

/-- The body of `detectFormFields`'s inner loop for one element: synthesize
the selector, drop the element when the selector contains any configured
exclude substring, otherwise classify and emit the descriptor. -/
def scanElement (formSelector elementSelector : String)
    (excludeSelectors : List String) (el : Element) (i : Nat) :
    Option FieldConfig :=
  let selector := synthSelector formSelector elementSelector el i
  if excludeSelectors.any (fun ex => strIncludes selector ex) then none
  else
    some { selector := Sel.str selector,
           fieldType := determineFieldType el.tagName el.typeAttr el.nameAttr
             el.idAttr el.placeholderAttr el.ariaLabelAttr el.labelAttr }

/-- One element-kind pass of `detectFormFields`: the loop bound is
`Math.min(await elements.count(), maxElements)` — `maxElements` flat, not
the remaining budget — and each of the first `count` elements is scanned in
discovery order, appending the non-excluded descriptors to `acc`. -/
def scanKind (formSelector elementSelector : String)
    (excludeSelectors : List String) (maxElements : Nat)
    (elements : List Element) (acc : List FieldConfig) : List FieldConfig :=
  let count := min elements.length maxElements
  ((elements.take count).enum).foldl
    (fun fs p =>
      match scanElement formSelector elementSelector excludeSelectors p.2 p.1 with
      | some cfg => fs ++ [cfg]
      | none => fs) acc

/-- `FormFiller.detectFormFields`: the three kind passes (eligible inputs,
selects, textareas) in order, stopping after a pass once
`formFields.length >= maxElements`. -/
def detectFormFields (env : Env) (formSelector : String)
    (excludeSelectors : List String) (maxElements : Nat) : List FieldConfig :=
  let fs1 := scanKind formSelector inputKindSelector excludeSelectors maxElements
      (env.query formSelector inputKindSelector) []
  if maxElements ≤ fs1.length then fs1
  else
    let fs2 := scanKind formSelector "select" excludeSelectors maxElements
        (env.query formSelector "select") fs1
    if maxElements ≤ fs2.length then fs2
    else
      scanKind formSelector "textarea" excludeSelectors maxElements
          (env.query formSelector "textarea") fs2

/-- A plain text input element, used as the default resolution target of
concrete environments. -/
def textInputEl : Element :=
  { tagName := "input", inputType := some "text", typeAttr := "text" }

/-- Concrete-environment builder: the page is given by `query`/`page`/
`handles`; every Faker oracle is a fixed deterministic string, which is a
legitimate instance of the synthetic-data collaborator. -/
def mkEnv (query : String → String → List Element) (page : String → Element)
    (handles : Nat → Element) : Env :=
  { query := query, page := page, handles := handles,
    loremWords3 := fun _ => "alpha beta gamma",
    internetEmail := fun _ => "a@example.com",
    internetPassword12 := fun _ => "pw12pw12pw12",
    phoneNumber := fun _ => "555-0100",
    dateRecentDay := fun _ => "2024-01-01",
    loremParagraphs2 := fun _ => "para one. para two.",
    personFullName := fun _ => "Jane Doe",
    streetAddress := fun _ => "1 Main St",
    cityName := fun _ => "Springfield",
    stateName := fun _ => "Kansas",
    zipCode := fun _ => "12345",
    countryName := fun _ => "Utopia",
    companyName := fun _ => "Acme",
    internetUrl := fun _ => "http://example.com",
    loremWord := fun _ => "lorem" }

/-- An eligible text input carrying only an id. -/
def inputElWithId (i : String) : Element :=
  { tagName := "input", inputType := some "text", typeAttr := "text", idAttr := i }

/-- A select element carrying only an id. -/
def selectElWithId (i : String) : Element :=
  { tagName := "select", idAttr := i }

/-- A page whose sole form holds one eligible input and two selects, all
with ids. -/
def envOneInputTwoSelects : Env :=
  mkEnv
    (fun _ k =>
      if k = inputKindSelector then [inputElWithId "i1"]
      else if k = "select" then [selectElWithId "s1", selectElWithId "s2"]
      else [])
    (fun _ => textInputEl) (fun _ => textInputEl)

/-- C1: refuted as stated; the code is the slip. The claim (and the
source's own documentation of `maxElements`, "Maximum number of elements to
detect") promises at most `maxElements` descriptors across all three
element kinds, but the per-kind loop bound is `min(kindCount, maxElements)`
without subtracting the already-collected count, and the stop check runs
only between kinds: with `maxElements = 2`, a form holding one eligible
input and two selects yields three descriptors. -/
theorem detectFormFields_can_exceed_maxElements :
    (detectFormFields envOneInputTwoSelects "form" [] 2).length = 3 ∧
      2 < (detectFormFields envOneInputTwoSelects "form" [] 2).length := by
  decide

/-- A page whose sole form holds two eligible inputs, the first with id
"captcha" (to be excluded) and the second with id "a". -/
def envCaptchaThenA : Env :=
  mkEnv
    (fun _ k => if k = inputKindSelector
      then [inputElWithId "captcha", inputElWithId "a"] else [])
    (fun _ => textInputEl) (fun _ => textInputEl)

/-- The same page with the excluded candidate removed: only the input with
id "a" remains. -/
def envOnlyA : Env :=
  mkEnv
    (fun _ k => if k = inputKindSelector then [inputElWithId "a"] else [])
    (fun _ => textInputEl) (fun _ => textInputEl)

/-- C3, counterexample: an excluded element does consume scanning budget.
With `maxElements = 1` and candidates [#captcha, #a], excluding "captcha"
returns no descriptors, while scanning the remaining (non-excluded)
candidates alone up to the same budget returns one — the claimed equality
of counts fails. -/
theorem detect_exclusion_consumes_budget :
    (detectFormFields envCaptchaThenA "form" ["captcha"] 1).length ≠
      (detectFormFields envOnlyA "form" ["captcha"] 1).length := by
  decide

/-- C3, amended: an excluded element is skipped without a descriptor being
emitted (so it never increments the collected count), but each kind pass
examines exactly the first `min(kindCount, maxElements)` candidates whether
or not some of them are excluded: the pass equals the `filterMap` of the
per-element scan over that fixed window appended to the accumulator, so an
excluded candidate inside the window displaces a later non-excluded one
instead of freeing its slot. -/
theorem scanKind_filterMap_of_truncated_window (formSelector elementSelector : String)
    (excludeSelectors : List String) (maxElements : Nat)
    (elements : List Element) (acc : List FieldConfig) :
    scanKind formSelector elementSelector excludeSelectors maxElements elements acc
      = acc ++ ((elements.take (min elements.length maxElements)).enum).filterMap
          (fun p => scanElement formSelector elementSelector excludeSelectors p.2 p.1) := by
  simp only [scanKind]
  generalize (elements.take (min elements.length maxElements)).enum = l
  induction l generalizing acc with
  | nil => simp
  | cons p l ih =>
    cases h : scanElement formSelector elementSelector excludeSelectors p.2 p.1 <;>
      simp [List.foldl_cons, List.filterMap_cons, h, ih]

/-- Modelled from the spec: the synthetic-data collaborator's bounded
integer generator `faker.number.int({min, max})` (§6, §4.2: "a uniformly
random integer in the closed interval"). With randomness draw `r` it
returns `min + r % (max - min + 1)`, a uniform draw over the interval; the
engine relies only on the result lying in `[min, max]`. -/
def fakerNumberInt (r : Nat) (lo hi : Int) : Int :=
  lo + (r : Int) % (hi - lo + 1)

/-- The enabled, non-empty option values the live-element evaluation of
`getRandomSelectOption` reads: `Array.from(el.options).filter(o => o.value
&& !o.disabled).map(o => o.value)` when the element is an
`HTMLSelectElement`, `[]` otherwise. -/
def liveOptionValues (el : Element) : List String :=
  if el.tagName = "select" then
    (el.selectOptions.filter (fun o => o.value != "" && !o.disabled)).map
      (fun o => o.value)
  else []

/-- `FormFiller.getRandomSelectOption`: resolve the selector, read the live
option values, return `""` when none exist, else a uniform pick. -/
def getRandomSelectOption (env : Env) (selector : Sel) (r : Nat) : String :=
  let options := liveOptionValues (resolveSel env selector)
  if options.length = 0 then "" else options.getD (r % options.length) ""

/-- `FormFiller.generateValue`: the caller's `valueGenerator` verbatim when
present, else dispatch on the semantic category. `r` is the call's
randomness draw (`Math.random` / Faker's internal source); FILE and CUSTOM
fall into the source's `default` arm (a single random word). The NUMBER arm
guards the interval the way the collaborator does: `faker.number.int`
throws when `max < min`. -/
def generateValue (env : Env) (fk : FakerInst) (cfg : FieldConfig) (r : Nat) :
    Except String Value :=
  match cfg.valueGenerator with
  | some g => g
  | none =>
    match cfg.fieldType with
    | FieldType.TEXT => Except.ok (Value.str (env.loremWords3 fk))
    | FieldType.EMAIL => Except.ok (Value.str (env.internetEmail fk))
    | FieldType.PASSWORD => Except.ok (Value.str (env.internetPassword12 fk))
    | FieldType.PHONE => Except.ok (Value.str (env.phoneNumber fk))
    | FieldType.NUMBER =>
        let lo := cfg.minBound.getD 1
        let hi := cfg.maxBound.getD 100
        if lo ≤ hi then Except.ok (Value.num (fakerNumberInt r lo hi))
        else Except.error "faker.number.int: max must be greater than min"
    | FieldType.DATE => Except.ok (Value.str (env.dateRecentDay fk))
    | FieldType.SELECT =>
        match cfg.options with
        | some opts =>
            if 0 < opts.length then
              Except.ok (Value.str (opts.getD (r % opts.length) ""))
            else Except.ok (Value.str (getRandomSelectOption env cfg.selector r))
        | none => Except.ok (Value.str (getRandomSelectOption env cfg.selector r))
    | FieldType.CHECKBOX => Except.ok (Value.bool (r % 2 == 0))
    | FieldType.RADIO_KIND => Except.ok (Value.bool (r % 2 == 0))
    | FieldType.TEXTAREA => Except.ok (Value.str (env.loremParagraphs2 fk))
    | FieldType.NAME => Except.ok (Value.str (env.personFullName fk))
    | FieldType.ADDRESS => Except.ok (Value.str (env.streetAddress fk))
    | FieldType.CITY => Except.ok (Value.str (env.cityName fk))
    | FieldType.STATE => Except.ok (Value.str (env.stateName fk))
    | FieldType.ZIP => Except.ok (Value.str (env.zipCode fk))
    | FieldType.COUNTRY => Except.ok (Value.str (env.countryName fk))
    | FieldType.COMPANY => Except.ok (Value.str (env.companyName fk))
    | FieldType.URL => Except.ok (Value.str (env.internetUrl fk))
    | FieldType.FILE => Except.ok (Value.str (env.loremWord fk))
    | FieldType.CUSTOM => Except.ok (Value.str (env.loremWord fk))

/-- A page with no queryable elements, resolving every reference to a plain
text input. -/
def envUnit : Env :=
  mkEnv (fun _ _ => []) (fun _ => textInputEl) (fun _ => textInputEl)

/-- The engine's initial Faker instance (constructor default locale "en"). -/
def fakerEn0 : FakerInst := { locale := "en", id := 0 }

/-- C5: a NUMBER-typed config without a `valueGenerator` generates the
bounded integer draw over `[min ?? 1, max ?? 100]`, which lies in that
closed interval whenever it is non-empty; with `min = max = 5` the value is
exactly 5. -/
theorem generateValue_NUMBER_within_bounds (env : Env) (fk : FakerInst)
    (cfg : FieldConfig) (r : Nat)
    (hg : cfg.valueGenerator = none) (ht : cfg.fieldType = FieldType.NUMBER)
    (hle : cfg.minBound.getD 1 ≤ cfg.maxBound.getD 100) :
    generateValue env fk cfg r
        = Except.ok (Value.num (fakerNumberInt r (cfg.minBound.getD 1) (cfg.maxBound.getD 100)))
      ∧ cfg.minBound.getD 1 ≤ fakerNumberInt r (cfg.minBound.getD 1) (cfg.maxBound.getD 100)
      ∧ fakerNumberInt r (cfg.minBound.getD 1) (cfg.maxBound.getD 100) ≤ cfg.maxBound.getD 100
      ∧ (cfg.minBound = some 5 → cfg.maxBound = some 5 →
          generateValue env fk cfg r = Except.ok (Value.num 5)) := by
  have hmodpos : (0 : Int) < cfg.maxBound.getD 100 - cfg.minBound.getD 1 + 1 := by
    omega
  have hnn : (0 : Int) ≤ (r : Int) % (cfg.maxBound.getD 100 - cfg.minBound.getD 1 + 1) :=
    Int.emod_nonneg _ (ne_of_gt hmodpos)
  have hlt : (r : Int) % (cfg.maxBound.getD 100 - cfg.minBound.getD 1 + 1)
      < cfg.maxBound.getD 100 - cfg.minBound.getD 1 + 1 :=
    Int.emod_lt_of_pos _ hmodpos
  refine ⟨?_, ?_, ?_, ?_⟩
  · simp [generateValue, hg, ht, hle]
  · unfold fakerNumberInt
    omega
  · unfold fakerNumberInt
    omega
  · intro h5 h5'
    have : fakerNumberInt r (cfg.minBound.getD 1) (cfg.maxBound.getD 100) = 5 := by
      simp [fakerNumberInt, h5, h5']
    simp [generateValue, hg, ht, hle, this]

/-- C5 witness: with `min = max = 5` the concrete run generates exactly 5. -/
theorem generateValue_NUMBER_within_bounds_witness :
    generateValue envUnit fakerEn0
        { selector := Sel.str "#n", fieldType := FieldType.NUMBER,
          minBound := some 5, maxBound := some 5 } 7
      = Except.ok (Value.num 5) :=
  (generateValue_NUMBER_within_bounds envUnit fakerEn0
      { selector := Sel.str "#n", fieldType := FieldType.NUMBER,
        minBound := some 5, maxBound := some 5 } 7
      rfl rfl (by decide)).2.2.2 rfl rfl

/-- C6: a SELECT-typed config without a `valueGenerator`, whose `options`
list is absent or empty and whose live element exposes no enabled,
non-empty option values, generates the empty string (an `ok` result, not an
exception). -/
theorem generateValue_SELECT_no_options_empty_string (env : Env) (fk : FakerInst)
    (cfg : FieldConfig) (r : Nat)
    (hg : cfg.valueGenerator = none) (ht : cfg.fieldType = FieldType.SELECT)
    (hopts : cfg.options = none ∨ cfg.options = some [])
    (hlive : liveOptionValues (resolveSel env cfg.selector) = []) :
    generateValue env fk cfg r = Except.ok (Value.str "") := by
  rcases hopts with h | h <;>
    simp [generateValue, hg, ht, h, getRandomSelectOption, hlive]

/-- A page whose every selector resolves to a bare `<select>` with no
options at all. -/
def envEmptySelect : Env :=
  mkEnv (fun _ _ => []) (fun _ => { tagName := "select" }) (fun _ => textInputEl)

/-- C6 witness: the concrete optionless run returns the empty string. -/
theorem generateValue_SELECT_no_options_empty_string_witness :
    generateValue envEmptySelect fakerEn0
        { selector := Sel.str "#s", fieldType := FieldType.SELECT } 3
      = Except.ok (Value.str "") :=
  generateValue_SELECT_no_options_empty_string envEmptySelect fakerEn0
    { selector := Sel.str "#s", fieldType := FieldType.SELECT } 3
    rfl rfl (Or.inl rfl) (by decide)

/-- One browser interaction the engine performs, with its target:
locator resolution, the four value-application techniques, the three
post-fill actions, the submit-button visibility probe and click, and the
scan pass of `detectFormFields`. -/
inductive Interaction where
  | resolve (target : Sel)
  | fillText (target : Sel) (s : String)
  | selectOption (target : Sel) (s : String)
  | check (target : Sel)
  | uncheck (target : Sel)
  | setFiles (target : Sel) (path : String)
  | click (target : Sel)
  | press (target : Sel) (key : String)
  | blur (target : Sel)
  | visibleCheck (target : Sel)
  | scan (formSelector : String)
deriving DecidableEq, Repr

/-- JS truthiness of an optional string property (`undefined` and `""` are
falsy). -/
def truthy : Option String → Bool
  | some s => s != ""
  | none => false

/-- `FormFiller.applyValueToField`: dispatch on the element's actual
runtime tag and declared input type — select-option for a select and a
string value, check/uncheck for a checkbox or radio input and a `true` or
`false` value (no-op otherwise), file-set for a file input with a truthy
`filePath`, and a text fill of `String(value)` in every other case — then
the three post-fill actions, each on its own flag, in order. -/
def applyValueToField (target : Sel) (el : Element) (cfg : FieldConfig)
    (v : Value) : List Interaction :=
  let base :=
    if el.tagName = "select" then
      match v with
      | Value.str s => [Interaction.selectOption target s]
      | _ => []
    else if el.tagName = "input" ∧
        (el.inputType = some "checkbox" ∨ el.inputType = some "radio") then
      match v with
      | Value.bool true => [Interaction.check target]
      | Value.bool false => [Interaction.uncheck target]
      | _ => []
    else if el.tagName = "input" ∧ el.inputType = some "file" ∧
        truthy cfg.filePath then
      [Interaction.setFiles target (cfg.filePath.getD "")]
    else
      [Interaction.fillText target (jsString v)]
  base ++ (if cfg.clickAfterFill then [Interaction.click target] else [])
    ++ (if cfg.pressEnterAfterFill then [Interaction.press target "Enter"] else [])
    ++ (if cfg.blurAfterFill then [Interaction.blur target] else [])

/-- C10: on an `input` element whose declared type is `file`, a config
without a `filePath` never sets the input's files; the application falls
through to the generic text branch and fills the string form of the value. -/
theorem applyValueToField_file_no_path_falls_to_text (target : Sel)
    (el : Element) (cfg : FieldConfig) (v : Value)
    (htag : el.tagName = "input") (htype : el.inputType = some "file")
    (hpath : cfg.filePath = none) :
    (∀ t p, Interaction.setFiles t p ∉ applyValueToField target el cfg v) ∧
      Interaction.fillText target (jsString v) ∈ applyValueToField target el cfg v := by
  have h1 : ¬ el.tagName = "select" := by simp [htag]
  have h2 : ¬ (el.tagName = "input" ∧
      (el.inputType = some "checkbox" ∨ el.inputType = some "radio")) := by
    simp [htype]
  have h3 : ¬ (el.tagName = "input" ∧ el.inputType = some "file" ∧
      truthy cfg.filePath) := by
    simp [hpath, truthy]
  constructor
  · intro t p
    cases hc : cfg.clickAfterFill <;> cases hp : cfg.pressEnterAfterFill <;>
      cases hb : cfg.blurAfterFill <;>
        simp [applyValueToField, h1, h2, h3, hc, hp, hb]
  · cases hc : cfg.clickAfterFill <;> cases hp : cfg.pressEnterAfterFill <;>
      cases hb : cfg.blurAfterFill <;>
        simp [applyValueToField, h1, h2, h3, hc, hp, hb]

/-- A bare file input element. -/
def fileInputEl : Element :=
  { tagName := "input", inputType := some "file", typeAttr := "file" }

/-- C10 witness: the concrete file input without `filePath` is filled as
text and its files are never set. -/
theorem applyValueToField_file_no_path_falls_to_text_witness :
    (∀ t p, Interaction.setFiles t p ∉
        applyValueToField (Sel.str "#f") fileInputEl
          { selector := Sel.str "#f", fieldType := FieldType.FILE }
          (Value.str "word")) ∧
      Interaction.fillText (Sel.str "#f") (jsString (Value.str "word")) ∈
        applyValueToField (Sel.str "#f") fileInputEl
          { selector := Sel.str "#f", fieldType := FieldType.FILE }
          (Value.str "word") :=
  applyValueToField_file_no_path_falls_to_text (Sel.str "#f") fileInputEl
    { selector := Sel.str "#f", fieldType := FieldType.FILE }
    (Value.str "word") rfl rfl rfl

/-- `FormFiller.getLocaleDefinition`: the `switch` supports exactly "en";
anything else throws `Unsupported locale: <locale>`. -/
def getLocaleDefinition (locale : String) : Except String String :=
  if locale = "en" then Except.ok "en"
  else Except.error ("Unsupported locale: " ++ locale)

/-- `new Faker({locale})`: allocate a fresh instance (fresh JS object
identity) carrying the requested locale definition. -/
def newFaker (st : EngineState) (localeDef : String) : FakerInst × EngineState :=
  ({ locale := localeDef, id := st.nextId }, { st with nextId := st.nextId + 1 })

deriving instance DecidableEq for Except

/-- The outcome of one engine call: its returned value or thrown error, the
engine state after the call, and the browser interactions performed. -/
structure FillOutcome where
  result : Except String Value
  state : EngineState
  trace : List Interaction
deriving DecidableEq, Repr

/-- The body of `fillField` after the optional locale install: resolve the
locator, generate the value (a throwing `valueGenerator` propagates, with
`this.faker` left as it stands — the restore sits after the apply), apply
it, and only then restore the saved instance when a locale was installed. -/
def fillFieldBody (env : Env) (st : EngineState) (originalFaker : FakerInst)
    (restoreLocale : Bool) (cfg : FieldConfig) (r : Nat) : FillOutcome :=
  let el := resolveSel env cfg.selector
  match generateValue env st.faker cfg r with
  | Except.error e =>
      { result := Except.error e, state := st,
        trace := [Interaction.resolve cfg.selector] }
  | Except.ok v =>
      let tr := applyValueToField cfg.selector el cfg v
      let st' := if restoreLocale then { st with faker := originalFaker } else st
      { result := Except.ok v, state := st',
        trace := Interaction.resolve cfg.selector :: tr }

/-- `FormFiller.fillField`: save the current Faker instance; when the
config carries a locale, translate it (an unsupported one throws before any
element work) and install a fresh instance; then run the resolve — generate
— apply — restore body and return the value used. -/
def fillField (env : Env) (st : EngineState) (cfg : FieldConfig) (r : Nat) :
    FillOutcome :=
  let originalFaker := st.faker
  match cfg.locale with
  | some loc =>
      match getLocaleDefinition loc with
      | Except.error e => { result := Except.error e, state := st, trace := [] }
      | Except.ok localeDef =>
          let p := newFaker st localeDef
          fillFieldBody env { faker := p.1, nextId := p.2.nextId } originalFaker
            true cfg r
  | none => fillFieldBody env st originalFaker false cfg r

/-- A TEXT config with a supported locale override whose caller-supplied
`valueGenerator` throws. -/
def throwingGenCfg : FieldConfig :=
  { selector := Sel.str "#f", fieldType := FieldType.TEXT,
    valueGenerator := some (Except.error "boom"), locale := some "en" }

/-- The engine state right after construction: the constructor's "en"
instance installed, one allocation consumed. -/
def st0 : EngineState := { faker := fakerEn0, nextId := 1 }

/-- C2: refuted as stated; the code is the slip. The claim (and the spec's
invariant, "must be restored to its prior value after any temporary
override", success or throw) promises the pre-call generator back after
`fillField` on a locale-carrying config completes; but the restore is
straight-line code after the apply, not a `finally`, so when the
`valueGenerator` throws during value generation the temporary instance
(fresh id 1) stays installed instead of the original (id 0). -/
theorem fillField_throw_keeps_temporary_faker :
    (fillField envUnit st0 throwingGenCfg 0).result = Except.error "boom" ∧
      (fillField envUnit st0 throwingGenCfg 0).state.faker ≠ st0.faker ∧
      (fillField envUnit st0 throwingGenCfg 0).state.faker
        = { locale := "en", id := 1 } := by
  decide

/-- Assignment `obj[key] = v` on a JS plain object, embedded as an
insertion-ordered association list with unique keys: overwrite in place
when the key exists, else append. -/
def jsInsert (m : List (String × Value)) (k : String) (v : Value) :
    List (String × Value) :=
  if m.any (fun p => p.1 == k) then
    m.map (fun p => if p.1 == k then (k, v) else p)
  else m ++ [(k, v)]

/-- The key under which `fillForm` stores one filled value: the config's
string selector when present, else the positional synthetic key
`field-<n>`; the source passes `n = Object.keys(fieldValues).length`, the
number of entries the map holds so far. -/
def selectorKey (sel : Sel) (n : Nat) : String :=
  match sel with
  | Sel.str s => s
  | Sel.handle _ => "field-" ++ toString n

/-- The loop of `fillForm`: fill each config in order (an error propagates,
discarding the partial map the way an uncaught throw does), keying each
value per `selectorKey` at the current map size. `rs` supplies the
randomness draw of call number `k`. -/
def fillFormGo (env : Env) (rs : Nat → Nat) :
    EngineState → Nat → List (String × Value) → List Interaction →
    List FieldConfig →
    Except String (List (String × Value)) × EngineState × List Interaction
  | st, _, acc, tr, [] => (Except.ok acc, st, tr)
  | st, k, acc, tr, cfg :: rest =>
      let o := fillField env st cfg (rs k)
      match o.result with
      | Except.error e => (Except.error e, o.state, tr ++ o.trace)
      | Except.ok v =>
          fillFormGo env rs o.state (k + 1)
            (jsInsert acc (selectorKey cfg.selector acc.length) v)
            (tr ++ o.trace) rest

/-- `FormFiller.fillForm`: the loop started on an empty map. -/
def fillForm (env : Env) (st : EngineState) (cfgs : List FieldConfig)
    (rs : Nat → Nat) :
    Except String (List (String × Value)) × EngineState × List Interaction :=
  fillFormGo env rs st 0 [] [] cfgs

/-- Follows the spec's words (§4.4) for the keys of `fillForm`'s result
map: the config's string selector when present, else the positional
synthetic key `field-<n>`, `n` counting the entries inserted so far. -/
def specKeys : Nat → List Sel → List String
  | _, [] => []
  | n, sel :: rest => selectorKey sel n :: specKeys (n + 1) rest

/-- Follows the spec's words (§4.4) for `fillForm`'s whole result: one
entry per config in order, the key as in `specKeys`, bound to the value the
fill of that config returned; an error propagates. -/
def fillFormSpecPairs (env : Env) (rs : Nat → Nat) :
    EngineState → Nat → Nat → List FieldConfig →
    Except String (List (String × Value))
  | _, _, _, [] => Except.ok []
  | st, k, n, cfg :: rest =>
      let o := fillField env st cfg (rs k)
      match o.result with
      | Except.error e => Except.error e
      | Except.ok v =>
          (fillFormSpecPairs env rs o.state (k + 1) (n + 1) rest).map
            (fun ps => (selectorKey cfg.selector n, v) :: ps)

/-- `Partial<Omit<FieldConfig, "selector">>`: a custom-field override;
`none` is an absent property (the embedding does not model a property
explicitly present with value `undefined`). -/
structure PartialFieldConfig where
  fieldType : Option FieldType := none
  valueGenerator : Option (Except String Value) := none
  minBound : Option Int := none
  maxBound : Option Int := none
  options : Option (List String) := none
  clickAfterFill : Option Bool := none
  pressEnterAfterFill : Option Bool := none
  blurAfterFill : Option Bool := none
  filePath : Option String := none
  locale : Option String := none

/-- The spread merge `{...formFields[i], ...customFields[selector]}`: every
property present on the override replaces the detected one. -/
def mergeConfig (c : FieldConfig) (p : PartialFieldConfig) : FieldConfig :=
  { selector := c.selector,
    fieldType := p.fieldType.getD c.fieldType,
    valueGenerator := (p.valueGenerator.map some).getD c.valueGenerator,
    minBound := (p.minBound.map some).getD c.minBound,
    maxBound := (p.maxBound.map some).getD c.maxBound,
    options := (p.options.map some).getD c.options,
    clickAfterFill := p.clickAfterFill.getD c.clickAfterFill,
    pressEnterAfterFill := p.pressEnterAfterFill.getD c.pressEnterAfterFill,
    blurAfterFill := p.blurAfterFill.getD c.blurAfterFill,
    filePath := (p.filePath.map some).getD c.filePath,
    locale := (p.locale.map some).getD c.locale }

/-- The `customFields` loop of `autoFillForm`: for each override key, find
the detected field whose selector strictly equals it (`===`, so never a
handle) and replace that entry with the merged config. -/
def applyCustomFields (fields : List FieldConfig)
    (customFields : List (String × PartialFieldConfig)) : List FieldConfig :=
  customFields.foldl
    (fun fs sp =>
      match fs.findIdx? (fun f => f.selector == Sel.str sp.1) with
      | some i => fs.set i (mergeConfig (fs.getD i default) sp.2)
      | none => fs)
    fields

/-- The `AutoFillOptions` interface; `none` is an omitted option, replaced
by the source's destructuring default. -/
structure AutoFillOptions where
  formSelector : Option String := none
  excludeSelectors : Option (List String) := none
  customFields : Option (List (String × PartialFieldConfig)) := none
  submitAfterFill : Option Bool := none
  submitSelector : Option String := none
  locale : Option String := none
  maxElements : Option Nat := none

/-- The submission tail of `autoFillForm`: probe the submit button's
visibility; click it when visible, else press Enter on
`formFields[formFields.length - 1]` when that element exists (an empty list
indexes to `undefined`, which is skipped). -/
def submitStep (env : Env) (submitSelector : String)
    (formFields : List FieldConfig) : List Interaction :=
  let btn := env.page submitSelector
  Interaction.visibleCheck (Sel.str submitSelector) ::
    (if btn.visible then [Interaction.click (Sel.str submitSelector)]
     else
       match formFields.getLast? with
       | some lastField => [Interaction.press lastField.selector "Enter"]
       | none => [])

/-- The body of `autoFillForm` after the optional locale install: detect,
merge the custom overrides, fill everything (an error propagates, skipping
both the submission and — as in `fillField` — the Faker restore), then
optionally submit and restore the saved instance. -/
def autoFillBody (env : Env) (st : EngineState) (originalFaker : FakerInst)
    (restoreLocale : Bool) (formSelector : String)
    (excludeSelectors : List String)
    (customFields : List (String × PartialFieldConfig))
    (submitAfterFill : Bool) (submitSelector : String) (maxElements : Nat)
    (rs : Nat → Nat) :
    Except String (List (String × Value)) × EngineState × List Interaction :=
  let formFields := applyCustomFields
      (detectFormFields env formSelector excludeSelectors maxElements)
      customFields
  let fr := fillForm env st formFields rs
  match fr.1 with
  | Except.error e =>
      (Except.error e, fr.2.1, Interaction.scan formSelector :: fr.2.2)
  | Except.ok m =>
      let subTr := if submitAfterFill then submitStep env submitSelector formFields
        else []
      let st' := if restoreLocale then { fr.2.1 with faker := originalFaker }
        else fr.2.1
      (Except.ok m, st', Interaction.scan formSelector :: (fr.2.2 ++ subTr))

/-- `FormFiller.autoFillForm`: destructure the options with their defaults,
optionally install a call-scoped locale (an unsupported one throws before
any element work), then detect — merge — fill — optionally submit —
restore. -/
def autoFillForm (env : Env) (st : EngineState) (options : AutoFillOptions)
    (rs : Nat → Nat) :
    Except String (List (String × Value)) × EngineState × List Interaction :=
  let formSelector := options.formSelector.getD "form"
  let excludeSelectors := options.excludeSelectors.getD []
  let customFields := options.customFields.getD []
  let submitAfterFill := options.submitAfterFill.getD false
  let submitSelector := options.submitSelector.getD "button[type=\x27submit\x27]"
  let maxElements := options.maxElements.getD 50
  let originalFaker := st.faker
  match options.locale with
  | some loc =>
      match getLocaleDefinition loc with
      | Except.error e => (Except.error e, st, [])
      | Except.ok localeDef =>
          let p := newFaker st localeDef
          autoFillBody env { faker := p.1, nextId := p.2.nextId } originalFaker
            true formSelector excludeSelectors customFields submitAfterFill
            submitSelector maxElements rs
  | none =>
      autoFillBody env st originalFaker false formSelector excludeSelectors
        customFields submitAfterFill submitSelector maxElements rs

/-- C7: a `fillField` or `autoFillForm` call requesting a locale outside
the supported set (only "en") throws `Unsupported locale` synchronously:
the error is returned with an empty interaction trace — no locator
resolution, attribute read or value application — and the engine state, in
particular the installed Faker instance, is unchanged. -/
theorem unsupported_locale_aborts_before_interaction
    (env : Env) (st : EngineState) (cfg : FieldConfig)
    (options : AutoFillOptions) (rs : Nat → Nat) (r : Nat) (loc loc' : String)
    (h1 : cfg.locale = some loc) (h2 : loc ≠ "en")
    (h3 : options.locale = some loc') (h4 : loc' ≠ "en") :
    fillField env st cfg r
        = { result := Except.error ("Unsupported locale: " ++ loc),
            state := st, trace := [] }
      ∧ autoFillForm env st options rs
        = (Except.error ("Unsupported locale: " ++ loc'), st, []) := by
  constructor
  · simp [fillField, h1, getLocaleDefinition, h2]
  · simp [autoFillForm, h3, getLocaleDefinition, h4]

/-- A TEXT config asking for the unsupported locale "fr". -/
def frenchCfg : FieldConfig :=
  { selector := Sel.str "#x", fieldType := FieldType.TEXT, locale := some "fr" }

/-- Auto-fill options asking for the unsupported locale "de". -/
def germanOpts : AutoFillOptions := { locale := some "de" }

/-- C7 witness: the concrete unsupported-locale calls abort untouched. -/
theorem unsupported_locale_aborts_before_interaction_witness :
    fillField envUnit st0 frenchCfg 0
        = { result := Except.error "Unsupported locale: fr",
            state := st0, trace := [] }
      ∧ autoFillForm envUnit st0 germanOpts (fun _ => 0)
        = (Except.error "Unsupported locale: de", st0, []) :=
  unsupported_locale_aborts_before_interaction envUnit st0 frenchCfg germanOpts
    (fun _ => 0) 0 "fr" "de" rfl (by decide) rfl (by decide)

/-- Inserting a key a JS object does not yet hold appends the entry. -/
theorem jsInsert_append_of_not_mem (m : List (String × Value)) (k : String)
    (v : Value) (h : k ∉ m.map Prod.fst) : jsInsert m k v = m ++ [(k, v)] := by
  have hfalse : (m.any (fun p => p.1 == k)) = false := by
    simp only [List.any_eq_false, beq_iff_eq]
    intro p hp hk
    exact h (hk ▸ List.mem_map_of_mem Prod.fst hp)
  simp [jsInsert, hfalse]

/-- The `fillForm` loop refines the spec-side pair list: as long as the
produced keys are pairwise distinct, each step's `jsInsert` is an append,
so the map is the accumulated pairs. -/
theorem fillFormGo_eq_specPairs (env : Env) (rs : Nat → Nat)
    (cfgs : List FieldConfig) :
    ∀ (st : EngineState) (k : Nat) (acc : List (String × Value))
      (tr : List Interaction),
    (acc.map Prod.fst
        ++ specKeys acc.length (cfgs.map (fun c => c.selector))).Nodup →
    (fillFormGo env rs st k acc tr cfgs).1
      = (fillFormSpecPairs env rs st k acc.length cfgs).map
          (fun ps => acc ++ ps) := by
  induction cfgs with
  | nil =>
    intro st k acc tr _
    simp [fillFormGo, fillFormSpecPairs, Except.map]
  | cons cfg rest ih =>
    intro st k acc tr h
    have hkeys : specKeys acc.length ((cfg :: rest).map (fun c => c.selector))
        = selectorKey cfg.selector acc.length
            :: specKeys (acc.length + 1) (rest.map (fun c => c.selector)) := by
      rw [List.map_cons]
      exact rfl
    rw [hkeys] at h
    simp only [fillFormGo, fillFormSpecPairs]
    cases hres : (fillField env st cfg (rs k)).result with
    | error e => simp [hres, Except.map]
    | ok v =>
      simp only [hres]
      have hmem : selectorKey cfg.selector acc.length ∉ acc.map Prod.fst :=
        fun hc => (List.nodup_append.mp h).2.2 hc (List.mem_cons_self _ _)
      have hnd' : ((acc ++ [(selectorKey cfg.selector acc.length, v)]).map Prod.fst
          ++ specKeys (acc ++ [(selectorKey cfg.selector acc.length, v)]).length
              (rest.map (fun c => c.selector))).Nodup := by
        simpa [List.append_assoc] using h
      have hih := ih (fillField env st cfg (rs k)).state (k + 1)
        (acc ++ [(selectorKey cfg.selector acc.length, v)])
        (tr ++ (fillField env st cfg (rs k)).trace) hnd'
      rw [jsInsert_append_of_not_mem acc _ v hmem]
      simp only [List.length_append, List.length_cons, List.length_nil] at hih
      rw [hih]
      cases hsp : fillFormSpecPairs env rs (fillField env st cfg (rs k)).state
          (k + 1) (acc.length + 1) rest with
      | error e => simp [hsp, Except.map]
      | ok ps => simp [hsp, Except.map]

/-- C8: `fillForm`'s result map refines the spec-side description — each
config keyed by its string selector when present, else by `field-<n>` with
`n` the number of entries the map already holds (equal, when all produced
keys are distinct, to the number of configs processed) — entry by entry, in
order, bound to the values the fills returned. -/
theorem fillForm_result_matches_specPairs (env : Env) (st : EngineState)
    (cfgs : List FieldConfig) (rs : Nat → Nat)
    (hnd : (specKeys 0 (cfgs.map (fun c => c.selector))).Nodup) :
    (fillForm env st cfgs rs).1 = fillFormSpecPairs env rs st 0 0 cfgs := by
  have h := fillFormGo_eq_specPairs env rs cfgs st 0 [] [] (by simpa using hnd)
  rw [fillForm, h]
  cases hsp : fillFormSpecPairs env rs st 0 0 cfgs with
  | error e => simp [hsp, Except.map]
  | ok ps => simp [hsp, Except.map]

/-- The spec's mixed two-item list: item 0 addressed by the string selector
"#a", item 1 by a raw resolved handle. -/
def mixedCfgs : List FieldConfig :=
  [{ selector := Sel.str "#a", fieldType := FieldType.TEXT },
   { selector := Sel.handle 0, fieldType := FieldType.EMAIL }]

/-- C8 witness: the mixed list produces exactly the keys "#a" and
"field-1", bound to the respective filled values. -/
theorem fillForm_result_matches_specPairs_witness :
    (fillForm envUnit st0 mixedCfgs (fun _ => 0)).1
      = Except.ok [("#a", Value.str "alpha beta gamma"),
                   ("field-1", Value.str "a@example.com")] := by
  rw [fillForm_result_matches_specPairs envUnit st0 mixedCfgs (fun _ => 0)
    (by decide)]
  decide

/-- C9: with `submitAfterFill` set, the submission tail clicks the submit
button when it is visible; otherwise it presses Enter on the element of the
last filled field when at least one field descriptor was filled, and
performs neither a click nor a key-press when none were; and an
`autoFillForm` run (plain options: no locale, no custom fields) whose fill
phase succeeds performs exactly the scan, the fill interactions, and that
submission tail over the detected descriptor list. -/
theorem autoFillForm_submit_dispatch :
    (∀ (env : Env) (ssel : String) (fields : List FieldConfig),
        ((env.page ssel).visible = true →
          submitStep env ssel fields
            = [Interaction.visibleCheck (Sel.str ssel),
               Interaction.click (Sel.str ssel)])
      ∧ (∀ lastF, (env.page ssel).visible = false →
          fields.getLast? = some lastF →
          submitStep env ssel fields
            = [Interaction.visibleCheck (Sel.str ssel),
               Interaction.press lastF.selector "Enter"])
      ∧ ((env.page ssel).visible = false → fields = [] →
          submitStep env ssel fields = [Interaction.visibleCheck (Sel.str ssel)]))
    ∧ (∀ (env : Env) (st : EngineState) (options : AutoFillOptions)
        (rs : Nat → Nat) (m : List (String × Value)),
        options.submitAfterFill = some true → options.locale = none →
        options.customFields = none →
        (fillForm env st
            (detectFormFields env (options.formSelector.getD "form")
              (options.excludeSelectors.getD []) (options.maxElements.getD 50))
            rs).1 = Except.ok m →
        autoFillForm env st options rs
          = (Except.ok m,
             (fillForm env st
                (detectFormFields env (options.formSelector.getD "form")
                  (options.excludeSelectors.getD [])
                  (options.maxElements.getD 50)) rs).2.1,
             Interaction.scan (options.formSelector.getD "form")
               :: ((fillForm env st
                      (detectFormFields env (options.formSelector.getD "form")
                        (options.excludeSelectors.getD [])
                        (options.maxElements.getD 50)) rs).2.2
                 ++ submitStep env
                      (options.submitSelector.getD "button[type=\x27submit\x27]")
                      (detectFormFields env (options.formSelector.getD "form")
                        (options.excludeSelectors.getD [])
                        (options.maxElements.getD 50))))) := by
  constructor
  · intro env ssel fields
    refine ⟨?_, ?_, ?_⟩
    · intro hvis
      simp [submitStep, hvis]
    · intro lastF hvis hlast
      simp [submitStep, hvis, hlast]
    · intro hvis hempty
      simp [submitStep, hvis, hempty]
  · intro env st options rs m hsub hloc hcf hok
    simp [autoFillForm, autoFillBody, applyCustomFields, List.foldl_nil,
      hloc, hsub, hcf, hok]

/-- A submit button element that is not visible. -/
def invisibleButton : Element := { tagName := "button", visible := false }

/-- A page with one eligible input (#a) whose submit button is invisible. -/
def envInvisibleSubmit : Env :=
  mkEnv
    (fun _ k => if k = inputKindSelector then [inputElWithId "a"] else [])
    (fun s => if s = "button[type=\x27submit\x27]" then invisibleButton
      else textInputEl)
    (fun _ => textInputEl)

/-- Options requesting submission after the automatic fill. -/
def submitOpts : AutoFillOptions := { submitAfterFill := some true }

/-- C9 witness: with the submit button invisible and one filled field, the
run ends by pressing Enter on that last filled field, not by clicking. -/
theorem autoFillForm_submit_dispatch_witness :
    autoFillForm envInvisibleSubmit st0 submitOpts (fun _ => 0)
      = (Except.ok [("#a", Value.str "alpha beta gamma")], st0,
         [Interaction.scan "form", Interaction.resolve (Sel.str "#a"),
          Interaction.fillText (Sel.str "#a") "alpha beta gamma",
          Interaction.visibleCheck (Sel.str "button[type=\x27submit\x27]"),
          Interaction.press (Sel.str "#a") "Enter"]) := by
  rw [autoFillForm_submit_dispatch.2 envInvisibleSubmit st0 submitOpts (fun _ => 0)
    [("#a", Value.str "alpha beta gamma")] rfl rfl rfl (by decide)]
  decide

end FormFillerModel
